import Mathlib

/-
Verification development for the dodona-edu judge-compilers core:
  - src/compile_error.py : the diagnostic classifier for build failures
  - src/judge.py         : the hierarchical test-tree runner

Python text is modelled shallowly.  Strings manipulated character-wise
(splitting on newlines, quoting) are modelled as lists of characters
(`Str`); strings that are only compared or concatenated are modelled as
`String`.  Python exceptions are modelled with `Except PyError`.  The
`re` library and the `lit` subprocess are external collaborators: their
results (match records, process records) are inputs of the embedded
functions.  Filesystem state is an association list from paths (component
lists) to file contents, whose list order models the enumeration order of
the underlying filesystem.
-/

/-- Character-list model of a Python `str` used where the code splits or
quotes text character-wise. -/
abbrev Str := List Char

/-- Model of Python `str.split` with separator a single newline:
`splitNl s` is the list of newline-free segments of `s`.  Like Python,
the empty string splits into one empty segment. -/
def splitNl : Str → List Str
  | [] => [[]]
  | c :: cs =>
    if c = '\n' then [] :: splitNl cs
    else
      match splitNl cs with
      | [] => [[c]]
      | l :: ls => (c :: l) :: ls

/-- Model of Python `"\n".join`: interleaves a newline between segments. -/
def joinNl : List Str → Str
  | [] => []
  | [l] => l
  | l :: l2 :: ls => l ++ '\n' :: joinNl (l2 :: ls)

/-- Message formats used by the reporting sink (dodona `MessageFormat`). -/
inductive MessageFormat where
  | markdown
  | code
deriving DecidableEq, Repr

/- ===== src/compile_error.py ===== -/

/-- One match of the precompiled pattern `_is_undefined_reference`
(a linker line of the shape: /usr/bin/ld: ... undefined reference to
a backquoted symbol).  The regex engine (`re.finditer`) is an external
collaborator; the embedding receives its matches as inputs.  The field
is the named capture group with the missing symbol name. -/
structure UndefinedReferenceMatch where
  missing_reference : Str
deriving DecidableEq, Repr

/-- One match of the precompiled pattern `_is_compile_error`
(`path:line:col: error: msg`).  Groups are the matched substrings; the
line and column groups consist of decimal digits. -/
structure CompileErrorMatch where
  line : Str
  column : Str
  message : Str
deriving DecidableEq, Repr

/-- Report nodes emitted by the diagnostic classifier: dodona `Message`
(with its format, an optional type tag and nested children) and dodona
`Annotation` (row, text, type). -/
inductive DiagNode where
  | message (description : Str) (format : MessageFormat) (mtype : Option Str) (children : List DiagNode)
  | annot (row : Int) (text : Str) (atype : Str)
deriving Repr

/-- Model of Python `int()` applied to a string of decimal digits
(the `line` and `column` regex groups match `\d+`). -/
def pyIntDigits (s : Str) : Int :=
  (s.foldl (fun a c => a * 10 + (c.toNat - Char.toNat '0')) 0 : Nat)

/-- Model of Python `f"{x}"` for an `Optional[int]`: `None` renders as
the four letters None, an int as its decimal form. -/
def pyStrOfOptInt : Option Int → Str
  | none => "None".data
  | some n => (toString n).data

/-- The `Message` emitted for the unresolved-references variant: the
header line followed by one bullet per missing reference (the Python
code joins the bullets with newlines). -/
def unresolved_message (missing_references : List Str) : DiagNode :=
  .message
    ("Could not find the following references:\n".data ++
      joinNl (missing_references.map (fun m_ref => " * `".data ++ m_ref ++ "`".data)))
    .markdown (some "error".data) []

/-- The block-quoted copy of the raw stderr used by the fallback variant:
each line of the text prefixed with a quote marker, wrapped in a quoted
code fence. -/
def fallback_error_message_md (stderr_content : Str) : Str :=
  "> ```\n".data ++
    joinNl ((splitNl stderr_content).map (fun line => "> ".data ++ line)) ++
    "\n> ```".data

/-- The `Message` emitted for the fallback variant: build-failure header,
the exit code, and the block-quoted raw stderr. -/
def fallback_message (stderr_content : Str) (exit_code : Option Int) : DiagNode :=
  .message
    ("Failed to build solution.\nCmake returned exit code **".data ++
      pyStrOfOptInt exit_code ++ "**.\n".data ++ fallback_error_message_md stderr_content)
    .markdown (some "error".data) []

/-- Embedding of `handle_compile_error` (src/compile_error.py).  The two
`re` calls are external: `undefined_references` is the result of
`re.finditer(_is_undefined_reference, stderr_content)` (all matches, in
text order) and `compile_error_match` the result of
`re.search(_is_compile_error, stderr_content)` (the first match, if
any).  Returns the emitted report nodes:
  - if any undefined-reference match exists, one markdown error Message
    listing the set of distinct missing references (Python builds a
    `set`; its unordered iteration is modelled by first-occurrence
    deduplication);
  - else, if a compile-error match exists, a code-format Message with
    the error message, containing an Annotation at row `int(line)`;
  - else the fallback Message with the block-quoted raw stderr. -/
def handle_compile_error (undefined_references : List UndefinedReferenceMatch)
    (compile_error_match : Option CompileErrorMatch)
    (stderr_content : Str) (exit_code : Option Int) : List DiagNode :=
  if !undefined_references.isEmpty then
    [unresolved_message ((undefined_references.map (·.missing_reference)).dedup)]
  else
    match compile_error_match with
    | some m =>
      [.message m.message .code none [.annot (pyIntDigits m.line) m.message "error".data]]
    | none =>
      [fallback_message stderr_content exit_code]

/- ===== src/judge.py : Python behaviour helpers ===== -/

/-- Model of Python `str.endswith`. -/
def pyEndsWith (s sfx : String) : Bool :=
  sfx.data.isSuffixOf s.data

/-- Model of Python truthiness of an `Optional[str]` value: `None` and
the empty string are falsy. -/
def pyTruthy : Option String → Bool
  | none => false
  | some s => !s.data.isEmpty

/-- Model of Python `str.replace` for a single-character pattern and
replacement (the only uses replace underscores and dashes by spaces). -/
def pyReplace1 (pat rep : Char) (s : String) : String :=
  String.mk (s.data.map (fun c => if c = pat then rep else c))

/-- Model of Python `str.capitalize`: first character uppercased, all
remaining characters lowercased (ASCII model of the unicode original). -/
def pyCapitalize (s : String) : String :=
  match s.data with
  | [] => ""
  | c :: rest => String.mk (c.toUpper :: rest.map Char.toLower)

/-- Model of Python `file.readlines`: segments of the text after each
newline, keeping the newline terminators; a final segment without a
trailing newline is kept, an empty one is not. -/
def pyReadlines (s : String) : List String :=
  let parts := (splitNl s.data).map String.mk
  (parts.dropLast.map (· ++ "\n")) ++
    (if (parts.getLastD "").data.isEmpty then [] else [parts.getLastD ""])

/-- Model of the Python format spec `.1f` applied to a duration:
fixed-point rendering with one decimal digit, rounding half to even
(CPython float formatting, modelled on the exact rational value).
Working directly on numerator and denominator: `k` is ten times the
value rounded half-to-even to an integer, via its floor `fl` and the
comparison of the fractional remainder `rem / den` with one half. -/
def format_1f (d : Rat) : String :=
  let n10 : Int := d.num * 10
  let den : Int := (d.den : Int)
  let fl : Int := Int.fdiv n10 den
  let rem : Int := n10 - fl * den
  let k : Int :=
    if den < 2 * rem then fl + 1
    else if 2 * rem < den then fl
    else if fl % 2 = 0 then fl else fl + 1
  let a := k.natAbs
  let digits := toString (a / 10) ++ "." ++ toString (a % 10)
  if k < 0 then "-" ++ digits else digits

/-- The markdown quoting used by both warning helpers: every line of
the text prefixed with a quote marker, rejoined with newlines. -/
def quoteMd (s : String) : String :=
  String.mk (joinNl ((splitNl s.data).map (fun l => '>' :: ' ' :: l)))

/- ===== src/judge.py : paths and filesystem environment ===== -/

/-- Filesystem paths as component lists (model of `pathlib.Path`). -/
abbrev FsPath := List String

/-- Model of `PurePath.name`: the last component. -/
def pathName (p : FsPath) : String := p.getLastD ""

/-- Model of `PurePath.relative_to(base)` for a path lying under
`base`: drops the leading base components. -/
def relative_to (p base : FsPath) : FsPath := p.drop base.length

/-- Model of `str(path)` on a relative path: components joined with a
slash. -/
def joinPath : FsPath → String
  | [] => ""
  | [a] => a
  | a :: b :: rest => a ++ "/" ++ joinPath (b :: rest)

/-- The target passed to the external `lit` tool:
the source path mirrored under `build_path / "test"`. -/
def lit_target (test_source_path evaluation_folder build_path : FsPath) : FsPath :=
  build_path ++ ["test"] ++ relative_to test_source_path evaluation_folder

/-- The `{correct, total}` aggregation counter: `collections.Counter`
restricted to the two keys the judge uses, with lookup semantics
(missing keys read as zero).  The dropping of non-positive entries by
the Counter addition is invisible under lookup for the non-negative
counters arising here. -/
structure Counter where
  correct : Int
  total : Int
deriving DecidableEq, Repr

def Counter.zero : Counter := ⟨0, 0⟩

instance : Add Counter := ⟨fun a b => ⟨a.correct + b.correct, a.total + b.total⟩⟩

/-- The invariant claimed for every counter the judge produces. -/
def counterInv (c : Counter) : Prop := 0 ≤ c.correct ∧ c.correct ≤ c.total

/-- Python exceptions distinguished by the claims: the division by zero
in `success_bar`, and any other propagated exception (I/O errors,
subprocess or JSON failures). -/
inductive PyError where
  | zeroDivisionError
  | exception
deriving DecidableEq, Repr

/-- Result of one `lit` invocation: the process return code, and the
parse of the structured JSON record the tool wrote (`none` models a
raise while reading or parsing it); a parsed record is the `code`
status string and the `elapsed` duration. -/
structure LitOutcome where
  returncode : Int
  parsed : Option (String × Rat)
deriving Repr

/-- The external world of one evaluation run: the filesystem as an
association list from absolute paths to file contents (list order
models filesystem enumeration order), and the behaviour of the external
`lit` tool per target path (`none` models `subprocess.run` raising). -/
structure Env where
  files : List (FsPath × String)
  lit : FsPath → Option LitOutcome

/-- First file content stored at a path, if any (model of opening a
file for reading; a `none` result at an `open` call is a raised
`FileNotFoundError`). -/
def lookupFile (env : Env) (p : FsPath) : Option String :=
  (env.files.find? (fun kv => decide (kv.1 = p))).map (·.2)

def fsPaths (env : Env) : List FsPath := env.files.map (·.1)

/-- `k` lies inside the folder `folder` (its leading components equal
the folder). -/
def isUnder (folder k : FsPath) : Bool := decide (k.take folder.length = folder)

/-- Model of `folder.glob("*.c")`: stored file paths directly inside
`folder` whose name ends in `.c`. -/
def globDirectC (env : Env) (folder : FsPath) : List FsPath :=
  (fsPaths env).filter (fun k =>
    isUnder folder k && decide (k.length = folder.length + 1) && pyEndsWith (pathName k) ".c")

/-- Model of `folder.glob("**/*.c")`: stored file paths anywhere under
`folder` whose name ends in `.c`. -/
def globRecC (env : Env) (folder : FsPath) : List FsPath :=
  (fsPaths env).filter (fun k =>
    isUnder folder k && decide (folder.length + 1 ≤ k.length) && pyEndsWith (pathName k) ".c")

/-- Model of `folder.glob("*/**/*.c")`: stored file paths at least two
levels under `folder` whose name ends in `.c`. -/
def globSubC (env : Env) (folder : FsPath) : List FsPath :=
  (fsPaths env).filter (fun k =>
    isUnder folder k && decide (folder.length + 2 ≤ k.length) && pyEndsWith (pathName k) ".c")

/-- A path is a directory iff some stored file lies strictly below it. -/
def isDir (env : Env) (p : FsPath) : Bool :=
  (fsPaths env).any (fun k => isUnder p k && decide (p.length + 1 ≤ k.length))

/-- Model of `Path.exists`: a stored file or a directory. -/
def pyExists (env : Env) (p : FsPath) : Bool :=
  (fsPaths env).any (fun k => decide (k = p)) || isDir env p

/-- The distinct child names of a folder, in filesystem order (the
enumeration underlying `iterdir` and `glob("*")`). -/
def childComponents (env : Env) (folder : FsPath) : List String :=
  (((fsPaths env).filter (fun k =>
      isUnder folder k && decide (folder.length + 1 ≤ k.length))).map
    (fun k => k.getD folder.length "")).dedup

/-- The names of the child directories of a folder (model of iterating
`folder.iterdir()` and keeping directories). -/
def dirNames (env : Env) (folder : FsPath) : List String :=
  (childComponents env folder).filter (fun n => isDir env (folder ++ [n]))

/-- The child directories of a folder (model of filtering
`folder.glob("*")` to directories). -/
def dirChildren (env : Env) (folder : FsPath) : List FsPath :=
  (dirNames env folder).map (fun n => folder ++ [n])

/-- Model of Python `set(l1) == set(l2)`. -/
def sameSet (l1 l2 : List FsPath) : Bool :=
  l1.all (fun p => decide (p ∈ l2)) && l2.all (fun p => decide (p ∈ l1))

/- ===== src/judge.py : the single-test helper ===== -/

/-- Observable filesystem actions of `_test_run_helper`, in order. -/
inductive FsEvent where
  | readFile (p : FsPath)
  | createTemp
  | invokeTool (target : FsPath)
  | removeTemp
deriving DecidableEq, Repr

/-- The reads of the expected-output and expected-error files at the
top of `_test_run_helper` (each guarded by `Path.exists`). -/
def expected_read_events (env : Env) (expected_output_path expected_error_path : FsPath) :
    List FsEvent :=
  (if (lookupFile env expected_output_path).isSome then
    [FsEvent.readFile expected_output_path] else []) ++
  (if (lookupFile env expected_error_path).isSome then
    [FsEvent.readFile expected_error_path] else [])

/-- The record produced by `_test_run_helper` for one test. -/
structure TestOutcome where
  correct : Bool
  status : String
  duration : Rat
  expected_output : Option String
  expected_error : Option String
  generated_output : Option String
  generated_error : Option String
deriving Repr

/-- A run of `_test_run_helper`: its result (or propagated exception)
together with the trace of its filesystem actions. -/
structure HelperRun where
  outcome : Except PyError TestOutcome
  events : List FsEvent

/-- The generated-output locations of `get_test_output_files`:
mirrored under the build tree, in an Output folder, suffixed. -/
structure TestOutputFiles where
  stdout : FsPath
  stderr : FsPath

def get_test_output_files (test_source_path evaluation_folder build_path : FsPath) :
    TestOutputFiles :=
  let rel_path := relative_to test_source_path evaluation_folder
  { stdout := build_path ++ ["test"] ++ rel_path.dropLast ++
      ["Output", pathName test_source_path ++ ".tmp.stdout"]
    stderr := build_path ++ ["test"] ++ rel_path.dropLast ++
      ["Output", pathName test_source_path ++ ".tmp.stderr"] }

/-- Embedding of `_test_run_helper` (src/judge.py).  Reads the expected
output and error files when they exist (empty string otherwise); then,
inside a try/finally, creates a temporary file, invokes the external
`lit` tool on the build target and parses the JSON record it wrote,
always removing the temporary file on the way out; for a custom fixture
(target name ending in the custom marker) returns the outcome with all
four text fields null; otherwise reads the two generated streams from
the build output tree.  Correctness is the process return code being
zero. -/
def _test_run_helper (test_source_path expected_output_path expected_error_path
    evaluation_folder build_path : FsPath) (env : Env) : HelperRun :=
  let expected_output := (lookupFile env expected_output_path).getD ""
  let expected_error := (lookupFile env expected_error_path).getD ""
  let preEvents := expected_read_events env expected_output_path expected_error_path
  let lit_target_path := lit_target test_source_path evaluation_folder build_path
  let tryEvents := [FsEvent.createTemp, FsEvent.invokeTool lit_target_path, FsEvent.removeTemp]
  match env.lit lit_target_path with
  | none => ⟨.error .exception, preEvents ++ tryEvents⟩
  | some proc_rec =>
    match proc_rec.parsed with
    | none => ⟨.error .exception, preEvents ++ tryEvents⟩
    | some (test_status, test_duration) =>
      let is_correct := proc_rec.returncode == 0
      if pyEndsWith (pathName lit_target_path) ".custom.c" then
        ⟨.ok ⟨is_correct, test_status, test_duration, none, none, none, none⟩,
          preEvents ++ tryEvents⟩
      else
        let ofs := get_test_output_files test_source_path evaluation_folder build_path
        match lookupFile env ofs.stdout with
        | none => ⟨.error .exception, preEvents ++ tryEvents⟩
        | some generated_output =>
          match lookupFile env ofs.stderr with
          | none => ⟨.error .exception, preEvents ++ tryEvents ++ [FsEvent.readFile ofs.stdout]⟩
          | some generated_error =>
            ⟨.ok ⟨is_correct, test_status, test_duration, some expected_output,
                some expected_error, some generated_output, some generated_error⟩,
              preEvents ++ tryEvents ++
                [FsEvent.readFile ofs.stdout, FsEvent.readFile ofs.stderr]⟩

/- ===== src/judge.py : report nodes and run_test ===== -/

/-- Dodona status values used by the judge. -/
inductive ErrorType where
  | correct
  | wrong
deriving DecidableEq, Repr

/-- The status dictionaries `_status_correct` and `_status_wrong`
(`enum` and `human` entries). -/
structure TestStatusVal where
  enum : ErrorType
  human : ErrorType
deriving DecidableEq, Repr

def _status_correct : TestStatusVal := ⟨.correct, .correct⟩

def _status_wrong : TestStatusVal := ⟨.wrong, .wrong⟩

/-- A description with its message format (the dicts passed as
descriptions to the dodona commands). -/
structure FormattedMsg where
  description : String
  format : MessageFormat
deriving DecidableEq, Repr

/-- Report nodes emitted by the test-tree runner, mirroring the nesting
of the dodona commands Tab, Context, TestCase, Test, Message. -/
inductive ReportNode where
  | tab (title : String) (badgeCount : Int) (children : List ReportNode)
  | context (descr : Option FormattedMsg) (children : List ReportNode)
  | testCase (descr : FormattedMsg) (accepted : Option Bool) (children : List ReportNode)
  | test (descr : FormattedMsg) (expected : Option String) (status : TestStatusVal)
      (generated : Option String) (children : List ReportNode)
  | message (descr : FormattedMsg)

/-- The nodes nested inside a report node. -/
def ReportNode.childNodes : ReportNode → List ReportNode
  | .tab _ _ cs => cs
  | .context _ cs => cs
  | .testCase _ _ cs => cs
  | .test _ _ _ _ cs => cs
  | .message _ => []

/-- The description text of a Message node (empty for other nodes);
used to tell warning messages apart. -/
def ReportNode.msgText : ReportNode → String
  | .message m => m.description
  | _ => ""

/-- Embedding of `warn_unexpected_error`: the lightning warning,
markdown-quoted. -/
def warn_unexpected_error (error_message : String) : ReportNode :=
  .message ⟨quoteMd ("&#9889;" ++ " **Your solution threw an unexpected error:**\n```\n" ++
      error_message ++ "\n```"), .markdown⟩

/-- Embedding of `warn_timeout`: the stopwatch warning with the
duration formatted to one decimal place, markdown-quoted. -/
def warn_timeout (duration : Rat) : ReportNode :=
  .message ⟨quoteMd ("&#9201;&#65039;" ++ " **Your solution timed out:** it took more than " ++
      format_1f duration ++ " s"), .markdown⟩

/-- The warnings attached inside the Test node by `run_test`: the
unexpected-error warning if flagged, else the timeout warning if the
status was TIMEOUT, else none (the if/elif at the end of the Test
block). -/
def run_test_warnings (unexpected_error did_timeout : Bool) (generated_error : Option String)
    (test_duration : Rat) : List ReportNode :=
  if unexpected_error then [warn_unexpected_error (generated_error.getD "")]
  else if did_timeout then [warn_timeout test_duration]
  else []

/-- Embedding of `run_test` (src/judge.py).  Runs the helper, reads the
test source file to build the markdown description (at most ten lines
shown), picks the compared streams (the error streams when an expected
error is truthy, else the output streams, flagging an unexpected error
when the generated error is truthy), emits one Test node with the
chosen expected/generated texts, the correctness status and the
attached warnings, and returns the per-test counter.  The dead
`if False:` branch guarding the custom-test rendering is embedded as
its sole live else branch; `is_custom_test` is computed but unused, as
in the source. -/
def run_test (test_source_path expected_output_path expected_error_path
    evaluation_folder build_path : FsPath) (env : Env) :
    Except PyError (Counter × ReportNode) :=
  match (_test_run_helper test_source_path expected_output_path expected_error_path
      evaluation_folder build_path env).outcome with
  | .error e => .error e
  | .ok o =>
    match lookupFile env test_source_path with
    | none => .error .exception
    | some source_text =>
      let is_custom_test := pyEndsWith (pathName test_source_path) ".custom.c"
      let did_timeout := o.status == "TIMEOUT"
      let short_file_path_str := joinPath (relative_to test_source_path evaluation_folder)
      let test_code0 := pyReadlines source_text
      let test_code1 :=
        if test_code0.length > 10 then
          test_code0.take 9 ++ ["... // Remainder of code omitted"]
        else test_code0
      let test_code := String.join test_code1
      let test_code_md := "```c\n" ++ test_code ++ "\n```"
      let ege :=
        if pyTruthy o.expected_error then (o.expected_error, o.generated_error, false)
        else (o.expected_output, o.generated_output, pyTruthy o.generated_error)
      .ok (⟨if o.correct then 1 else 0, 1⟩,
        .test ⟨" &#x1F4C4; " ++ short_file_path_str ++ "\n" ++ test_code_md, .markdown⟩
          ege.1 (if o.correct then _status_correct else _status_wrong) ege.2.1
          (run_test_warnings ege.2.2 did_timeout o.generated_error o.duration))

/- ===== src/judge.py : hidden tests, groups, hierarchy ===== -/

/-- Embedding of `success_bar`: the fixed-width proportion bar.  The
float division and flooring are modelled exactly on rationals; with
`num_total` zero the Python division raises `ZeroDivisionError`. -/
def success_bar (num_success num_total : Int) (width : Int) : Except PyError String :=
  if num_total = 0 then .error .zeroDivisionError
  else
    let bar_length := Int.fdiv (num_success * width) num_total
    .ok (String.mk (List.replicate bar_length.toNat '█') ++
      String.mk (List.replicate (width - bar_length).toNat '░'))

/-- The per-fixture loop of `run_hidden_tests`: each fixture goes
through the helper (no report leaf), counting successes and tests. -/
def run_hidden_loop (hidden_tests_folder evaluation_folder build_path : FsPath) (env : Env) :
    List FsPath → Int → Int → Except PyError (Int × Int)
  | [], num_success, num_tests => .ok (num_success, num_tests)
  | test_source_path :: rest, num_success, num_tests =>
    let expected_output_path := hidden_tests_folder ++ [pathName test_source_path ++ ".stdout"]
    let expected_error_path := hidden_tests_folder ++ [pathName test_source_path ++ ".stderr"]
    match (_test_run_helper test_source_path expected_output_path expected_error_path
        evaluation_folder build_path env).outcome with
    | .error e => .error e
    | .ok o =>
      run_hidden_loop hidden_tests_folder evaluation_folder build_path env rest
        (num_success + (if o.correct then 1 else 0)) (num_tests + 1)

/-- Embedding of `run_hidden_tests`: runs every fixture under the
folder through the lean helper, then emits one summary TestCase with
the proportion bar and the accepted flag, returning the aggregate
counter. -/
def run_hidden_tests (hidden_tests_folder evaluation_folder build_path : FsPath) (env : Env) :
    Except PyError (Counter × ReportNode) :=
  match run_hidden_loop hidden_tests_folder evaluation_folder build_path env
      (globRecC env hidden_tests_folder) 0 0 with
  | .error e => .error e
  | .ok (num_success, num_tests) =>
    match success_bar num_success num_tests 20 with
    | .error e => .error e
    | .ok bar =>
      .ok (⟨num_success, num_tests⟩,
        .testCase ⟨"##### Hidden tests: " ++ bar ++ " " ++ toString num_success ++ "/" ++
            toString num_tests ++ " correct", .markdown⟩
          (some (num_success == num_tests)) [])

/-- Embedding of `folder_path_to_title`: underscores and dashes become
spaces, then capitalize. -/
def folder_path_to_title (folder_path : FsPath) : String :=
  pyCapitalize (pyReplace1 '-' ' ' (pyReplace1 '_' ' ' (pathName folder_path)))

/-- The per-fixture loop of `run_test_case`, accumulating the counter
and the emitted Test leaves. -/
def run_test_case_loop (test_case_folder evaluation_folder build_path : FsPath) (env : Env) :
    List FsPath → Counter → List ReportNode → Except PyError (Counter × List ReportNode)
  | [], res, nodes => .ok (res, nodes)
  | test_source_path :: rest, res, nodes =>
    let expected_output_path := test_case_folder ++ [pathName test_source_path ++ ".stdout"]
    let expected_error_path := test_case_folder ++ [pathName test_source_path ++ ".stderr"]
    match run_test test_source_path expected_output_path expected_error_path
        evaluation_folder build_path env with
    | .error e => .error e
    | .ok (c, node) =>
      run_test_case_loop test_case_folder evaluation_folder build_path env rest
        (res + c) (nodes ++ [node])

/-- Embedding of `run_test_case`: one TestCase node titled after the
folder, wrapping the Test leaves of the sibling fixtures, with the
summed counter.  The `is_dummy` parameter exists but is unused, as in
the source. -/
def run_test_case (test_case_folder evaluation_folder build_path : FsPath) (env : Env)
    (is_dummy : Bool) : Except PyError (Counter × ReportNode) :=
  match run_test_case_loop test_case_folder evaluation_folder build_path env
      (globDirectC env test_case_folder) Counter.zero [] with
  | .error e => .error e
  | .ok (res, nodes) =>
    .ok (res, .testCase ⟨"##### " ++ folder_path_to_title test_case_folder, .markdown⟩
      none nodes)

/-- The `has_sub_folders` test of `create_context`: some fixture at
least two levels down, and not all child directories named hidden. -/
def has_sub_folders_b (env : Env) (context_folder : FsPath) : Bool :=
  !(globSubC env context_folder).isEmpty &&
    !((dirNames env context_folder).all (fun f => f == "hidden"))

/-- The Context heading: a markdown title unless the context is the
synthetic dummy one. -/
def context_descr (context_folder : FsPath) (is_dummy : Bool) : Option FormattedMsg :=
  if !is_dummy then some ⟨"#### " ++ folder_path_to_title context_folder, .markdown⟩
  else none

/-- The sub-folder loop of `create_context`: each child directory is a
test-case group, with `hidden` and `grading` skipped during the
enumeration (the hidden tests run last). -/
def create_context_loop (evaluation_folder build_path : FsPath) (env : Env) :
    List FsPath → Counter → List ReportNode → Except PyError (Counter × List ReportNode)
  | [], res, nodes => .ok (res, nodes)
  | folder :: rest, res, nodes =>
    if pathName folder == "hidden" || pathName folder == "grading" then
      create_context_loop evaluation_folder build_path env rest res nodes
    else
      match run_test_case folder evaluation_folder build_path env false with
      | .error e => .error e
      | .ok (c, node) =>
        create_context_loop evaluation_folder build_path env rest (res + c) (nodes ++ [node])

/-- The visible part of `create_context` (everything before the hidden
batch): the folder itself as one test-case group when it has no
sub-folders, else one group per child directory with `hidden` and
`grading` skipped. -/
def create_context_visible (context_folder evaluation_folder build_path : FsPath)
    (env : Env) : Except PyError (Counter × List ReportNode) :=
  if !has_sub_folders_b env context_folder then
    match run_test_case context_folder evaluation_folder build_path env false with
    | .error e => .error e
    | .ok (c, node) => .ok (c, [node])
  else
    create_context_loop evaluation_folder build_path env (dirChildren env context_folder)
      Counter.zero []

/-- Embedding of `create_context`: one Context node; in both branches
the hidden batch, when a `hidden` entry exists, is run last and its
summary appended after all visible groups. -/
def create_context (context_folder evaluation_folder build_path : FsPath) (env : Env)
    (is_dummy : Bool) : Except PyError (Counter × ReportNode) :=
  if !has_sub_folders_b env context_folder then
    match run_test_case context_folder evaluation_folder build_path env false with
    | .error e => .error e
    | .ok (c1, node) =>
      if pyExists env (context_folder ++ ["hidden"]) then
        match run_hidden_tests (context_folder ++ ["hidden"]) evaluation_folder
            build_path env with
        | .error e => .error e
        | .ok (c2, hnode) =>
          .ok (c1 + c2, .context (context_descr context_folder is_dummy) [node, hnode])
      else .ok (c1, .context (context_descr context_folder is_dummy) [node])
  else
    match create_context_loop evaluation_folder build_path env
        (dirChildren env context_folder) Counter.zero [] with
    | .error e => .error e
    | .ok (c1, nodes) =>
      if pyExists env (context_folder ++ ["hidden"]) then
        match run_hidden_tests (context_folder ++ ["hidden"]) evaluation_folder
            build_path env with
        | .error e => .error e
        | .ok (c2, hnode) =>
          .ok (c1 + c2, .context (context_descr context_folder is_dummy) (nodes ++ [hnode]))
      else .ok (c1, .context (context_descr context_folder is_dummy) nodes)

/-- The sub-rubric loop of `create_tab`. -/
def create_tab_loop (evaluation_folder build_path : FsPath) (env : Env) :
    List FsPath → Counter → List ReportNode → Except PyError (Counter × List ReportNode)
  | [], res, nodes => .ok (res, nodes)
  | folder :: rest, res, nodes =>
    match create_context folder evaluation_folder build_path env false with
    | .error e => .error e
    | .ok (c, node) =>
      create_tab_loop evaluation_folder build_path env rest (res + c) (nodes ++ [node])

/-- The `has_sub_rubrics` test of `create_tab`: some fixture at least
two levels down, and not all child directories named hidden or
grading. -/
def has_sub_rubrics_b (env : Env) (tab_folder : FsPath) : Bool :=
  !(globSubC env tab_folder).isEmpty &&
    !((dirNames env tab_folder).all (fun f => f == "hidden" || f == "grading"))

/-- The body of the Tab block of `create_tab`: one dummy context when
the rubric has no sub-rubrics, else one context per child directory. -/
def create_tab_children (tab_folder evaluation_folder build_path : FsPath) (env : Env) :
    Except PyError (Counter × List ReportNode) :=
  if !has_sub_rubrics_b env tab_folder then
    match create_context tab_folder evaluation_folder build_path env true with
    | .error e => .error e
    | .ok (c, node) => .ok (c, [node])
  else
    create_tab_loop evaluation_folder build_path env (dirChildren env tab_folder)
      Counter.zero []

/-- Embedding of `create_tab`: a rubric whose whole fixture set lies
under `grading` is excluded outright (zero counter, nothing emitted);
otherwise one Tab node holding either one dummy context or one context
per child directory, with badge count `total - correct`. -/
def create_tab (tab_folder evaluation_folder build_path : FsPath) (env : Env) :
    Except PyError (Counter × List ReportNode) :=
  if sameSet (globRecC env tab_folder) (globRecC env (tab_folder ++ ["grading"])) then
    .ok (Counter.zero, [])
  else
    match create_tab_children tab_folder evaluation_folder build_path env with
    | .error e => .error e
    | .ok (res, children) =>
      .ok (res, [.tab (folder_path_to_title tab_folder) (res.total - res.correct) children])

/-- The rubric loop of `test_submission`. -/
def test_submission_loop (evaluation_folder build_path : FsPath) (env : Env) :
    List FsPath → Counter → List ReportNode → Except PyError (Counter × List ReportNode)
  | [], res, nodes => .ok (res, nodes)
  | folder :: rest, res, nodes =>
    match create_tab folder evaluation_folder build_path env with
    | .error e => .error e
    | .ok (c, ns) =>
      test_submission_loop evaluation_folder build_path env rest (res + c) (nodes ++ ns)

/-- Embedding of `test_submission`: folds `create_tab` over the child
directories of the evaluation folder. -/
def test_submission (evaluation_folder build_path : FsPath) (env : Env) :
    Except PyError (Counter × List ReportNode) :=
  test_submission_loop evaluation_folder build_path env (dirChildren env evaluation_folder)
    Counter.zero []

/- ===== concrete environments for witnesses and counterexamples ===== -/

/-- Empty filesystem, failing tool. -/
def envEmpty : Env := ⟨[], fun _ => none⟩

/-- One ordinary fixture whose run reports TIMEOUT with return code 1
and a nonempty generated stderr, no expected files. -/
def envC1 : Env :=
  ⟨[(["ev", "t", "t.c"], "code"),
    (["bp", "test", "t", "Output", "t.c.tmp.stdout"], ""),
    (["bp", "test", "t", "Output", "t.c.tmp.stderr"], "boom")],
   fun _ => some ⟨1, some ("TIMEOUT", 5)⟩⟩

/-- A custom fixture with an existing expected-stdout sibling file. -/
def envC4 : Env :=
  ⟨[(["ev", "t", "a.custom.c"], "code"),
    (["ev", "t", "a.custom.c.stdout"], "5\n")],
   fun _ => some ⟨0, some ("PASS", 1)⟩⟩

/-- A rubric whose only fixture lies under its grading subfolder. -/
def envC5 : Env := ⟨[(["ev", "t", "grading", "a.c"], "x")], fun _ => none⟩

/-- A context with only a hidden subfolder holding one passing test. -/
def envC6 : Env :=
  ⟨[(["ev", "c", "hidden", "h.c"], "x"),
    (["bp", "test", "c", "hidden", "Output", "h.c.tmp.stdout"], ""),
    (["bp", "test", "c", "hidden", "Output", "h.c.tmp.stderr"], "")],
   fun _ => some ⟨0, some ("PASS", 1)⟩⟩

/- ===== theorems: shared helper lemmas ===== -/

theorem splitNl_ne_nil (s : Str) : splitNl s ≠ [] := by
  cases s with
  | nil => simp [splitNl]
  | cons c cs =>
    simp only [splitNl]
    split
    · simp
    · split <;> simp

theorem joinNl_splitNl (s : Str) : joinNl (splitNl s) = s := by
  induction s with
  | nil => rfl
  | cons c cs ih =>
    by_cases hc : c = '\n'
    · subst hc
      simp only [splitNl, if_pos rfl]
      cases h : splitNl cs with
      | nil => exact absurd h (splitNl_ne_nil cs)
      | cons l ls =>
        rw [h] at ih
        simpa [joinNl] using ih
    · simp only [splitNl, if_neg hc]
      cases h : splitNl cs with
      | nil => exact absurd h (splitNl_ne_nil cs)
      | cons l ls =>
        rw [h] at ih
        cases ls with
        | nil => simpa [joinNl] using ih
        | cons l2 ls2 =>
          simp only [joinNl] at ih ⊢
          simp [← ih]

/- ===== theorems: diagnostic classifier (C2, C3, C8) ===== -/

/-- Claim C2 (confirmed): for every stderr text with at least one
undefined-reference match (a nonempty `re.finditer` result), the
classifier produces exactly the unresolved-symbols Message, whose
content is the deduplicated, unordered set of missing-symbol names of
all matches, regardless of any compile-error match also present; the
located and fallback variants are not produced (the output is exactly
the one unresolved-symbols node). -/
theorem claim_c2 (u : UndefinedReferenceMatch) (us : List UndefinedReferenceMatch)
    (cem : Option CompileErrorMatch) (stderr : Str) (ec : Option Int) :
    handle_compile_error (u :: us) cem stderr ec
        = [unresolved_message (((u :: us).map (·.missing_reference)).dedup)] ∧
      (((u :: us).map (·.missing_reference)).dedup).Nodup ∧
      ∀ s : Str, s ∈ ((u :: us).map (·.missing_reference)).dedup ↔
        ∃ m, m ∈ u :: us ∧ m.missing_reference = s := by
  refine ⟨rfl, List.nodup_dedup _, fun s => ?_⟩
  rw [List.mem_dedup, List.mem_map]

/-- Claim C3 (corrected at the column): with no undefined-reference
match and a compile-error match present, the output is independent of
the column group of the match: two matches differing only in the column
produce identical output, so the produced report does not contain the
integer column the claim requires.  The second conjunct shows the shape
actually produced: a code-format Message with the message text and a
nested Annotation at row `int(line)` — no column anywhere. -/
theorem claim_c3_counterexample :
    handle_compile_error [] (some ⟨"3".data, "7".data, "msg".data⟩) "x".data (some 1)
        = handle_compile_error [] (some ⟨"3".data, "99".data, "msg".data⟩) "x".data (some 1) ∧
      handle_compile_error [] (some ⟨"3".data, "7".data, "msg".data⟩) "x".data (some 1)
        = [DiagNode.message "msg".data .code none
            [DiagNode.annot 3 "msg".data "error".data]] :=
  ⟨rfl, rfl⟩

/-- Claim C3 (amended): for every stderr text with no
undefined-reference match but with a compile-error match (the first
match found by `re.search`, even if several compiler errors appear),
the classifier produces the located variant consisting of a code-format
Message carrying the message group and a nested Annotation at row equal
to the integer value of the line group; the column group is captured by
the pattern but does not appear in the produced report (the output is
invariant under changing it). -/
theorem claim_c3 (line column msg column2 stderr : Str) (ec : Option Int) :
    handle_compile_error [] (some ⟨line, column, msg⟩) stderr ec
        = [DiagNode.message msg .code none
            [DiagNode.annot (pyIntDigits line) msg "error".data]] ∧
      handle_compile_error [] (some ⟨line, column, msg⟩) stderr ec
        = handle_compile_error [] (some ⟨line, column2, msg⟩) stderr ec :=
  ⟨rfl, rfl⟩

/-- Claim C8 (confirmed): for every stderr text matching neither
pattern, the classifier produces the fallback variant, and the
block-quoting of the raw text is lossless: dropping the two-character
quote marker from each quoted line and rejoining with newlines yields
the original stderr text verbatim. -/
theorem claim_c8 (stderr : Str) (ec : Option Int) :
    handle_compile_error [] none stderr ec = [fallback_message stderr ec] ∧
      joinNl (((splitNl stderr).map (fun line => "> ".data ++ line)).map
        (fun l => l.drop 2)) = stderr := by
  refine ⟨rfl, ?_⟩
  rw [List.map_map]
  have h : ((fun l : Str => l.drop 2) ∘ fun line : Str => "> ".data ++ line) = id := by
    funext l; rfl
  rw [h, List.map_id, joinNl_splitNl]

theorem Counter.add_def (a b : Counter) :
    a + b = ⟨a.correct + b.correct, a.total + b.total⟩ := rfl

theorem counterInv_zero : counterInv Counter.zero := ⟨le_refl 0, le_refl 0⟩

theorem counterInv_add {a b : Counter} (ha : counterInv a) (hb : counterInv b) :
    counterInv (a + b) :=
  ⟨add_nonneg ha.1 hb.1, add_le_add ha.2 hb.2⟩

theorem run_test_counter (tsp eo ee ev bp : FsPath) (env : Env) (c : Counter)
    (node : ReportNode) (h : run_test tsp eo ee ev bp env = .ok (c, node)) :
    counterInv c := by
  unfold run_test at h
  cases ho : (_test_run_helper tsp eo ee ev bp env).outcome with
  | error e => rw [ho] at h; simp at h
  | ok o =>
    rw [ho] at h
    cases hl : lookupFile env tsp with
    | none => rw [hl] at h; simp at h
    | some src =>
      rw [hl] at h
      simp only [Except.ok.injEq, Prod.mk.injEq] at h
      obtain ⟨hc, -⟩ := h
      subst hc
      constructor
      · simp only [counterInv]
        split <;> omega
      · simp only [counterInv]
        split <;> omega

theorem run_test_case_loop_counter (tc ev bp : FsPath) (env : Env) :
    ∀ (files : List FsPath) (acc : Counter) (nodes : List ReportNode) (c : Counter)
      (ns : List ReportNode), counterInv acc →
      run_test_case_loop tc ev bp env files acc nodes = .ok (c, ns) → counterInv c := by
  intro files
  induction files with
  | nil =>
    intro acc nodes c ns hacc h
    simp only [run_test_case_loop, Except.ok.injEq, Prod.mk.injEq] at h
    exact h.1 ▸ hacc
  | cons f fs ih =>
    intro acc nodes c ns hacc h
    simp only [run_test_case_loop] at h
    cases hr : run_test f (tc ++ [pathName f ++ ".stdout"]) (tc ++ [pathName f ++ ".stderr"])
        ev bp env with
    | error e => rw [hr] at h; simp at h
    | ok p =>
      obtain ⟨pc, pn⟩ := p
      rw [hr] at h
      exact ih _ _ _ _ (counterInv_add hacc (run_test_counter _ _ _ _ _ _ _ _ hr)) h

theorem run_test_case_counter (tc ev bp : FsPath) (env : Env) (d : Bool) (c : Counter)
    (node : ReportNode) (h : run_test_case tc ev bp env d = .ok (c, node)) :
    counterInv c := by
  unfold run_test_case at h
  cases hl : run_test_case_loop tc ev bp env (globDirectC env tc) Counter.zero [] with
  | error e => rw [hl] at h; simp at h
  | ok p =>
    obtain ⟨pc, pn⟩ := p
    rw [hl] at h
    simp only [Except.ok.injEq, Prod.mk.injEq] at h
    exact h.1 ▸ run_test_case_loop_counter tc ev bp env _ _ _ _ _ counterInv_zero hl

theorem run_hidden_loop_bounds (hf ev bp : FsPath) (env : Env) :
    ∀ (files : List FsPath) (ns nt rs rt : Int), 0 ≤ ns → ns ≤ nt →
      run_hidden_loop hf ev bp env files ns nt = .ok (rs, rt) → 0 ≤ rs ∧ rs ≤ rt := by
  intro files
  induction files with
  | nil =>
    intro ns nt rs rt h0 h1 h
    simp only [run_hidden_loop, Except.ok.injEq, Prod.mk.injEq] at h
    obtain ⟨hs, ht⟩ := h
    subst hs; subst ht; exact ⟨h0, h1⟩
  | cons f fs ih =>
    intro ns nt rs rt h0 h1 h
    simp only [run_hidden_loop] at h
    cases ho : (_test_run_helper f (hf ++ [pathName f ++ ".stdout"])
        (hf ++ [pathName f ++ ".stderr"]) ev bp env).outcome with
    | error e => rw [ho] at h; simp at h
    | ok o =>
      rw [ho] at h
      refine ih _ _ _ _ ?_ ?_ h
      · have : (0 : Int) ≤ if o.correct then 1 else 0 := by split <;> omega
        omega
      · have : (if o.correct then (1 : Int) else 0) ≤ 1 := by split <;> omega
        omega

theorem run_hidden_tests_counter (hf ev bp : FsPath) (env : Env) (c : Counter)
    (node : ReportNode) (h : run_hidden_tests hf ev bp env = .ok (c, node)) :
    counterInv c := by
  unfold run_hidden_tests at h
  split at h
  · simp at h
  · rename_i pns pnt hl
    split at h
    · simp at h
    · rename_i bar hbar
      simp only [Except.ok.injEq, Prod.mk.injEq] at h
      have hbnd := run_hidden_loop_bounds hf ev bp env _ _ _ _ _ (le_refl 0) (le_refl 0) hl
      rw [← h.1]
      exact hbnd

theorem create_context_loop_counter (ev bp : FsPath) (env : Env) :
    ∀ (folders : List FsPath) (acc : Counter) (nodes : List ReportNode) (c : Counter)
      (ns : List ReportNode), counterInv acc →
      create_context_loop ev bp env folders acc nodes = .ok (c, ns) → counterInv c := by
  intro folders
  induction folders with
  | nil =>
    intro acc nodes c ns hacc h
    simp only [create_context_loop, Except.ok.injEq, Prod.mk.injEq] at h
    exact h.1 ▸ hacc
  | cons f fs ih =>
    intro acc nodes c ns hacc h
    simp only [create_context_loop] at h
    by_cases hn : (pathName f == "hidden" || pathName f == "grading") = true
    · rw [if_pos hn] at h
      exact ih _ _ _ _ hacc h
    · rw [if_neg hn] at h
      cases hr : run_test_case f ev bp env false with
      | error e => rw [hr] at h; simp at h
      | ok p =>
        obtain ⟨pc, pn⟩ := p
        rw [hr] at h
        exact ih _ _ _ _ (counterInv_add hacc (run_test_case_counter _ _ _ _ _ _ _ hr)) h

theorem create_context_counter (cf ev bp : FsPath) (env : Env) (d : Bool) (c : Counter)
    (node : ReportNode) (h : create_context cf ev bp env d = .ok (c, node)) :
    counterInv c := by
  unfold create_context at h
  split at h
  · split at h
    · simp at h
    · rename_i pc pn hr
      split at h
      · split at h
        · simp at h
        · rename_i qc qn hh
          simp only [Except.ok.injEq, Prod.mk.injEq] at h
          exact h.1 ▸ counterInv_add (run_test_case_counter _ _ _ _ _ _ _ hr)
            (run_hidden_tests_counter _ _ _ _ _ _ hh)
      · simp only [Except.ok.injEq, Prod.mk.injEq] at h
        exact h.1 ▸ run_test_case_counter _ _ _ _ _ _ _ hr
  · split at h
    · simp at h
    · rename_i pc pn hl
      split at h
      · split at h
        · simp at h
        · rename_i qc qn hh
          simp only [Except.ok.injEq, Prod.mk.injEq] at h
          exact h.1 ▸ counterInv_add
            (create_context_loop_counter _ _ _ _ _ _ _ _ counterInv_zero hl)
            (run_hidden_tests_counter _ _ _ _ _ _ hh)
      · simp only [Except.ok.injEq, Prod.mk.injEq] at h
        exact h.1 ▸ create_context_loop_counter _ _ _ _ _ _ _ _ counterInv_zero hl

theorem create_tab_loop_counter (ev bp : FsPath) (env : Env) :
    ∀ (folders : List FsPath) (acc : Counter) (nodes : List ReportNode) (c : Counter)
      (ns : List ReportNode), counterInv acc →
      create_tab_loop ev bp env folders acc nodes = .ok (c, ns) → counterInv c := by
  intro folders
  induction folders with
  | nil =>
    intro acc nodes c ns hacc h
    simp only [create_tab_loop, Except.ok.injEq, Prod.mk.injEq] at h
    exact h.1 ▸ hacc
  | cons f fs ih =>
    intro acc nodes c ns hacc h
    simp only [create_tab_loop] at h
    split at h
    · simp at h
    · rename_i pc pn hr
      exact ih _ _ _ _ (counterInv_add hacc (create_context_counter _ _ _ _ _ _ _ hr)) h

theorem create_tab_children_counter (tf ev bp : FsPath) (env : Env) (c : Counter)
    (ns : List ReportNode) (h : create_tab_children tf ev bp env = .ok (c, ns)) :
    counterInv c := by
  unfold create_tab_children at h
  split at h
  · split at h
    · simp at h
    · rename_i qc qn hq
      simp only [Except.ok.injEq, Prod.mk.injEq] at h
      exact h.1 ▸ create_context_counter _ _ _ _ _ _ _ hq
  · exact create_tab_loop_counter _ _ _ _ _ _ _ _ counterInv_zero h

theorem create_tab_counter (tf ev bp : FsPath) (env : Env) (c : Counter)
    (ns : List ReportNode) (h : create_tab tf ev bp env = .ok (c, ns)) :
    counterInv c := by
  unfold create_tab at h
  split at h
  · simp only [Except.ok.injEq, Prod.mk.injEq] at h
    exact h.1 ▸ counterInv_zero
  · split at h
    · simp at h
    · rename_i res children hbranch
      simp only [Except.ok.injEq, Prod.mk.injEq] at h
      exact h.1 ▸ create_tab_children_counter _ _ _ _ _ _ hbranch

theorem test_submission_loop_counter (ev bp : FsPath) (env : Env) :
    ∀ (folders : List FsPath) (acc : Counter) (nodes : List ReportNode) (c : Counter)
      (ns : List ReportNode), counterInv acc →
      test_submission_loop ev bp env folders acc nodes = .ok (c, ns) → counterInv c := by
  intro folders
  induction folders with
  | nil =>
    intro acc nodes c ns hacc h
    simp only [test_submission_loop, Except.ok.injEq, Prod.mk.injEq] at h
    exact h.1 ▸ hacc
  | cons f fs ih =>
    intro acc nodes c ns hacc h
    simp only [test_submission_loop] at h
    split at h
    · simp at h
    · rename_i pc pns hr
      exact ih _ _ _ _ (counterInv_add hacc (create_tab_counter _ _ _ _ _ _ hr)) h

theorem test_submission_counter (ev bp : FsPath) (env : Env) (c : Counter)
    (ns : List ReportNode) (h : test_submission ev bp env = .ok (c, ns)) :
    counterInv c := by
  unfold test_submission at h
  exact test_submission_loop_counter _ _ _ _ _ _ _ _ counterInv_zero h

/- ===== theorems: the claims on src/judge.py ===== -/

/-- Claim C7 (confirmed): Counter addition is commutative and
associative with the zero counter as identity, and every counter
produced by run_test, run_test_case, run_hidden_tests, create_context,
create_tab and test_submission (on every successful run; a raised
exception propagates no counter) satisfies the invariant
`0 <= correct <= total`. -/
theorem claim_c7 :
    (∀ a b : Counter, a + b = b + a) ∧
    (∀ a b c : Counter, a + b + c = a + (b + c)) ∧
    (∀ a : Counter, Counter.zero + a = a ∧ a + Counter.zero = a) ∧
    (∀ (tsp eo ee ev bp : FsPath) (env : Env) (c : Counter) (node : ReportNode),
      run_test tsp eo ee ev bp env = .ok (c, node) → counterInv c) ∧
    (∀ (tc ev bp : FsPath) (env : Env) (d : Bool) (c : Counter) (node : ReportNode),
      run_test_case tc ev bp env d = .ok (c, node) → counterInv c) ∧
    (∀ (hf ev bp : FsPath) (env : Env) (c : Counter) (node : ReportNode),
      run_hidden_tests hf ev bp env = .ok (c, node) → counterInv c) ∧
    (∀ (cf ev bp : FsPath) (env : Env) (d : Bool) (c : Counter) (node : ReportNode),
      create_context cf ev bp env d = .ok (c, node) → counterInv c) ∧
    (∀ (tf ev bp : FsPath) (env : Env) (c : Counter) (ns : List ReportNode),
      create_tab tf ev bp env = .ok (c, ns) → counterInv c) ∧
    (∀ (ev bp : FsPath) (env : Env) (c : Counter) (ns : List ReportNode),
      test_submission ev bp env = .ok (c, ns) → counterInv c) := by
  refine ⟨?_, ?_, ?_, run_test_counter, run_test_case_counter, run_hidden_tests_counter,
    create_context_counter, create_tab_counter, test_submission_counter⟩
  · intro a b
    cases a; cases b
    simp only [Counter.add_def, Counter.mk.injEq]
    omega
  · intro a b c
    cases a; cases b; cases c
    simp only [Counter.add_def, Counter.mk.injEq]
    omega
  · intro a
    cases a
    refine ⟨?_, ?_⟩ <;> (simp only [Counter.zero, Counter.add_def, Counter.mk.injEq]; omega)

/-- A closed instance of claim C7: its run_test_case component applied
to a concrete empty test-case group, whose counter is the zero counter
and satisfies the invariant. -/
theorem claim_c7_witness : counterInv Counter.zero :=
  claim_c7.2.2.2.2.1 ["ev", "t"] ["ev"] ["bp"] envEmpty false Counter.zero
    (ReportNode.testCase ⟨"##### T", .markdown⟩ none []) rfl

/-- Claim C9 (confirmed): on every run of `_test_run_helper` — tool
invocation and parsing succeeded, the subprocess raised, the JSON parse
raised, or the later generated-stream reads raised — the event trace
contains the temporary-file creation immediately followed by the tool
invocation and then the removal of the temporary file: the file is
created right before invoking the tool and removed on every exit
path. -/
theorem claim_c9 (tsp eo ee ev bp : FsPath) (env : Env) :
    ∃ pre post, (_test_run_helper tsp eo ee ev bp env).events
      = pre ++ [FsEvent.createTemp, FsEvent.invokeTool (lit_target tsp ev bp),
          FsEvent.removeTemp] ++ post := by
  simp only [_test_run_helper]
  split
  · exact ⟨expected_read_events env eo ee, [], by simp⟩
  · split
    · exact ⟨expected_read_events env eo ee, [], by simp⟩
    · split
      · exact ⟨expected_read_events env eo ee, [], by simp⟩
      · split
        · exact ⟨expected_read_events env eo ee, [], by simp⟩
        · split
          · exact ⟨expected_read_events env eo ee,
              [FsEvent.readFile (get_test_output_files tsp ev bp).stdout], by simp⟩
          · exact ⟨expected_read_events env eo ee,
              [FsEvent.readFile (get_test_output_files tsp ev bp).stdout,
               FsEvent.readFile (get_test_output_files tsp ev bp).stderr], by simp⟩

/-- Claim C4 counterexample: for the custom fixture of `envC4`, whose
expected-stdout sibling file exists, the single-test evaluator DOES
open and read that expected file (its read is in the event trace),
contradicting the claim that no expected or generated stdout/stderr
files are read for custom fixtures. -/
theorem claim_c4_counterexample :
    FsEvent.readFile ["ev", "t", "a.custom.c.stdout"] ∈
      (_test_run_helper ["ev", "t", "a.custom.c"] ["ev", "t", "a.custom.c.stdout"]
        ["ev", "t", "a.custom.c.stderr"] ["ev"] ["bp"] envC4).events := by
  decide

/-- Claim C4 (amended): for every fixture whose target name ends with
the custom marker, the helper trace is exactly the expected-file reads
followed by temp-creation, tool invocation and temp-removal — so the
generated stdout/stderr files are never read — and when the tool ran
and its record parsed, the outcome has all four expected/generated
fields null and its correctness is exactly the process exit code being
zero.  Unlike the original claim, the expected stdout/stderr sibling
files, when present, are still opened and read before the custom check
(their contents are discarded). -/
theorem claim_c4 (tsp eo ee ev bp : FsPath) (env : Env)
    (hcust : pyEndsWith (pathName (lit_target tsp ev bp)) ".custom.c" = true) :
    (_test_run_helper tsp eo ee ev bp env).events
      = expected_read_events env eo ee ++ [FsEvent.createTemp,
          FsEvent.invokeTool (lit_target tsp ev bp), FsEvent.removeTemp] ∧
    ∀ (proc_rec : LitOutcome) (st : String) (dur : Rat),
      env.lit (lit_target tsp ev bp) = some proc_rec →
      proc_rec.parsed = some (st, dur) →
      (_test_run_helper tsp eo ee ev bp env).outcome
        = .ok ⟨proc_rec.returncode == 0, st, dur, none, none, none, none⟩ := by
  constructor
  · simp only [_test_run_helper]
    split
    · rfl
    · split
      · rfl
      · rw [if_pos hcust]
  · intro proc_rec st dur hlit hparsed
    simp only [_test_run_helper, hlit, hparsed]
    rw [if_pos hcust]

/-- A closed instance of claim C4 at the custom fixture of `envC4`:
the trace reads only the existing expected file around the tool
invocation, and the outcome has null text fields with correctness from
the exit code. -/
theorem claim_c4_witness :
    (_test_run_helper ["ev", "t", "a.custom.c"] ["ev", "t", "a.custom.c.stdout"]
        ["ev", "t", "a.custom.c.stderr"] ["ev"] ["bp"] envC4).events
      = expected_read_events envC4 ["ev", "t", "a.custom.c.stdout"]
          ["ev", "t", "a.custom.c.stderr"] ++ [FsEvent.createTemp,
          FsEvent.invokeTool (lit_target ["ev", "t", "a.custom.c"] ["ev"] ["bp"]),
          FsEvent.removeTemp] ∧
    (_test_run_helper ["ev", "t", "a.custom.c"] ["ev", "t", "a.custom.c.stdout"]
        ["ev", "t", "a.custom.c.stderr"] ["ev"] ["bp"] envC4).outcome
      = .ok ⟨true, "PASS", 1, none, none, none, none⟩ := by
  constructor
  · exact (claim_c4 ["ev", "t", "a.custom.c"] ["ev", "t", "a.custom.c.stdout"]
      ["ev", "t", "a.custom.c.stderr"] ["ev"] ["bp"] envC4 (by decide)).1
  · exact (claim_c4 ["ev", "t", "a.custom.c"] ["ev", "t", "a.custom.c.stdout"]
      ["ev", "t", "a.custom.c.stderr"] ["ev"] ["bp"] envC4 (by decide)).2
      ⟨0, some ("PASS", 1)⟩ "PASS" 1 rfl rfl

/-- Claim C1 counterexample: in `envC1` the tool reports TIMEOUT, the
generated stderr is nonempty and the expected error is empty, so both
warnings could apply; the warning attached to the Test leaf by
`run_test` is the unexpected-error warning, which differs from the
timeout warning — refuting the claimed timeout precedence. -/
theorem claim_c1_counterexample :
    ((run_test ["ev", "t", "t.c"] ["ev", "t", "t.c.stdout"] ["ev", "t", "t.c.stderr"]
        ["ev"] ["bp"] envC1).toOption.map (fun p => p.2.childNodes))
      = some [warn_unexpected_error "boom"] ∧
    warn_unexpected_error "boom" ≠ warn_timeout 5 := by
  constructor
  · rfl
  · intro heq
    have hmt := congrArg ReportNode.msgText heq
    revert hmt
    decide

/-- Claim C1 (amended): on every run whose outcome has status TIMEOUT,
a falsy expected error and a truthy generated error — the situation in
which both the timeout warning and the unexpected-error warning could
apply — the warning attached to the Test leaf by `run_test` is the
unexpected-error warning: unexpected-error takes rendering precedence
over timeout (the timeout warning is attached only when no unexpected
error is flagged). -/
theorem claim_c1 (tsp eo ee ev bp : FsPath) (env : Env) (o : TestOutcome)
    (p : Counter × ReportNode)
    (ho : (_test_run_helper tsp eo ee ev bp env).outcome = .ok o)
    (hstatus : o.status = "TIMEOUT")
    (hee : pyTruthy o.expected_error = false)
    (hge : pyTruthy o.generated_error = true)
    (hp : run_test tsp eo ee ev bp env = .ok p) :
    p.2.childNodes = [warn_unexpected_error (o.generated_error.getD "")] := by
  unfold run_test at hp
  rw [ho] at hp
  cases hl : lookupFile env tsp with
  | none => rw [hl] at hp; simp at hp
  | some src =>
    rw [hl] at hp
    simp only [Except.ok.injEq] at hp
    rw [← hp]
    simp [ReportNode.childNodes, run_test_warnings, hee, hge]

/-- A closed instance of claim C1 at `envC1`: the Test leaf carries
exactly the unexpected-error warning. -/
theorem claim_c1_witness :
    (ReportNode.test ⟨" &#x1F4C4; t/t.c\n```c\ncode\n```", .markdown⟩ (some "")
        _status_wrong (some "") [warn_unexpected_error "boom"]).childNodes
      = [warn_unexpected_error "boom"] :=
  claim_c1 ["ev", "t", "t.c"] ["ev", "t", "t.c.stdout"] ["ev", "t", "t.c.stderr"] ["ev"] ["bp"]
    envC1 ⟨false, "TIMEOUT", 5, some "", some "", some "", some "boom"⟩
    (⟨0, 1⟩, ReportNode.test ⟨" &#x1F4C4; t/t.c\n```c\ncode\n```", .markdown⟩ (some "")
      _status_wrong (some "") [warn_unexpected_error "boom"])
    rfl rfl rfl rfl rfl

theorem sameSet_eq_true {l1 l2 : List FsPath}
    (h1 : ∀ p ∈ l1, p ∈ l2) (h2 : ∀ p ∈ l2, p ∈ l1) : sameSet l1 l2 = true := by
  simp only [sameSet, Bool.and_eq_true, List.all_eq_true, decide_eq_true_eq]
  exact ⟨h1, h2⟩

theorem mem_globRecC {env : Env} {folder p : FsPath} :
    p ∈ globRecC env folder ↔ p ∈ fsPaths env ∧ p.take folder.length = folder ∧
      folder.length + 1 ≤ p.length ∧ pyEndsWith (pathName p) ".c" = true := by
  simp only [globRecC, List.mem_filter, isUnder, Bool.and_eq_true, decide_eq_true_eq]
  tauto

theorem pathName_concat (l : FsPath) (a : String) : pathName (l ++ [a]) = a := by
  simp [pathName]

/-- Claim C5 (confirmed): a rubric folder whose entire fixture set lies
under its grading subfolder (every fixture path continues with the
grading component right after the rubric folder) yields the zero
counter and emits no report node: no Tab is opened and no test is
run. -/
theorem claim_c5 (tab ev bp : FsPath) (env : Env)
    (h : ∀ p ∈ globRecC env tab, p.take (tab.length + 1) = tab ++ ["grading"]) :
    create_tab tab ev bp env = .ok (Counter.zero, []) := by
  have hglen : (tab ++ ["grading"]).length = tab.length + 1 := by simp
  have hss : sameSet (globRecC env tab) (globRecC env (tab ++ ["grading"])) = true := by
    apply sameSet_eq_true
    · intro p hp
      obtain ⟨hfs, htake, hlen, hc⟩ := mem_globRecC.mp hp
      have htk := h p hp
      have hlen2 : tab.length + 2 ≤ p.length := by
        rcases Nat.lt_or_ge p.length (tab.length + 2) with hlt | hge
        · exfalso
          have hple : p.length ≤ tab.length + 1 := by omega
          have hpe : p = tab ++ ["grading"] := by
            rw [← htk]
            exact (List.take_of_length_le hple).symm
          rw [hpe, pathName_concat] at hc
          exact absurd hc (by decide)
        · exact hge
      refine mem_globRecC.mpr ⟨hfs, ?_, ?_, hc⟩
      · rw [hglen]
        exact htk
      · omega
    · intro p hp
      obtain ⟨hfs, htake, hlen, hc⟩ := mem_globRecC.mp hp
      rw [hglen] at htake hlen
      refine mem_globRecC.mpr ⟨hfs, ?_, by omega, hc⟩
      have h1 : p.take tab.length = (p.take (tab.length + 1)).take tab.length := by
        rw [List.take_take]
        congr 1
        omega
      rw [h1, htake]
      simp
  unfold create_tab
  rw [hss]
  simp

/-- A closed instance of claim C5: the rubric of `envC5`, whose only
fixture lies under grading, yields the zero counter and no node. -/
theorem claim_c5_witness :
    create_tab ["ev", "t"] ["ev"] ["bp"] envC5 = .ok (Counter.zero, []) :=
  claim_c5 ["ev", "t"] ["ev"] ["bp"] envC5 (by decide)

/-- Claim C6 (confirmed): whenever a sub-rubric folder has a `hidden`
entry, and the visible part of the context and the hidden batch both
complete, the Context node emitted by `create_context` lists the hidden
summary as its LAST child, after all visible test-case groups — in both
branches of the context-level classification and for every filesystem
enumeration order (the order of sibling entries is part of `env` and is
universally quantified here). -/
theorem claim_c6 (cf ev bp : FsPath) (env : Env) (d : Bool) (cv ch : Counter)
    (vnodes : List ReportNode) (hnode : ReportNode)
    (hex : pyExists env (cf ++ ["hidden"]) = true)
    (hv : create_context_visible cf ev bp env = .ok (cv, vnodes))
    (hh : run_hidden_tests (cf ++ ["hidden"]) ev bp env = .ok (ch, hnode)) :
    create_context cf ev bp env d
      = .ok (cv + ch, .context (context_descr cf d) (vnodes ++ [hnode])) := by
  unfold create_context_visible at hv
  by_cases hsf : (!has_sub_folders_b env cf) = true
  · rw [if_pos hsf] at hv
    cases hr : run_test_case cf ev bp env false with
    | error e => rw [hr] at hv; simp at hv
    | ok p =>
      obtain ⟨pc, pn⟩ := p
      rw [hr] at hv
      simp only [Except.ok.injEq, Prod.mk.injEq] at hv
      obtain ⟨hc1, hn1⟩ := hv
      subst hc1
      subst hn1
      unfold create_context
      rw [if_pos hsf, hr]
      simp only [hex, if_true, hh]
      rfl
  · rw [if_neg hsf] at hv
    unfold create_context
    rw [if_neg hsf, hv]
    simp only [hex, if_true, hh]

/-- A closed instance of claim C6 at `envC6`: the hidden summary node
is the last child of the context, after the visible group. -/
theorem claim_c6_witness :
    create_context ["ev", "c"] ["ev"] ["bp"] envC6 false
      = .ok (Counter.zero + ⟨1, 1⟩,
        .context (context_descr ["ev", "c"] false)
          ([ReportNode.testCase ⟨"##### C", .markdown⟩ none []]
            ++ [ReportNode.testCase
                  ⟨"##### Hidden tests: ████████████████████ 1/1 correct", .markdown⟩
                  (some true) []])) :=
  claim_c6 ["ev", "c"] ["ev"] ["bp"] envC6 false Counter.zero ⟨1, 1⟩
    [ReportNode.testCase ⟨"##### C", .markdown⟩ none []]
    (ReportNode.testCase ⟨"##### Hidden tests: ████████████████████ 1/1 correct", .markdown⟩
      (some true) [])
    (by decide) rfl rfl

theorem globDirectC_nil_of_globRecC_nil {env : Env} {folder : FsPath}
    (h : globRecC env folder = []) : globDirectC env folder = [] := by
  rw [globRecC, List.filter_eq_nil_iff] at h
  rw [globDirectC, List.filter_eq_nil_iff]
  intro k hk hcon
  apply h k hk
  simp only [isUnder, Bool.and_eq_true, decide_eq_true_eq] at hcon ⊢
  exact ⟨⟨hcon.1.1, by omega⟩, hcon.2⟩

/-- Claim C10 (confirmed): on a hidden-tests folder containing zero
fixture files, `run_hidden_tests` fails with the ZeroDivisionError
raised by the success-rate division in `success_bar` (evaluated with
num_total zero) instead of returning the zero counter with an empty
summary; the zero-fixture case IS a valid non-error state for visible
groups: `run_test_case` on the same folder returns the zero counter
with an empty TestCase node. -/
theorem claim_c10 (folder ev bp : FsPath) (env : Env)
    (h : globRecC env folder = []) :
    run_hidden_tests folder ev bp env = .error .zeroDivisionError ∧
    run_test_case folder ev bp env false
      = .ok (Counter.zero, .testCase ⟨"##### " ++ folder_path_to_title folder, .markdown⟩
          none []) := by
  constructor
  · unfold run_hidden_tests
    rw [h]
    rfl
  · unfold run_test_case
    rw [globDirectC_nil_of_globRecC_nil h]
    rfl

/-- A closed instance of claim C10 on the empty filesystem: the hidden
runner raises ZeroDivisionError while the visible group returns the
zero counter. -/
theorem claim_c10_witness :
    run_hidden_tests ["ev", "h"] ["ev"] ["bp"] envEmpty = .error .zeroDivisionError ∧
    run_test_case ["ev", "h"] ["ev"] ["bp"] envEmpty false
      = .ok (Counter.zero, .testCase ⟨"##### " ++ folder_path_to_title ["ev", "h"],
          .markdown⟩ none []) :=
  claim_c10 ["ev", "h"] ["ev"] ["bp"] envEmpty rfl
